import Mathlib

set_option maxRecDepth 8000
set_option maxHeartbeats 1600000

/-!
Verification model of the cdc-card-reader firmware (src/sd.rs and
src/driver.rs), as a shallow embedding.

Card side (src/sd.rs): the SPI bus is modelled as an oracle
`resp : List Nat -> Option Nat` giving the card's response as a function of
the full sequence of bytes the driver has sent so far (`none` models a bus
level transport failure, which the source converts to SpiError).  Every
`txrx` appends the transmitted byte to the history and queries the oracle.
Chip-select toggling and cycle delays have no observable effect in this
model and are omitted.  `todo!()` branches of the source are modelled by
the `todo` outcome; the unbounded busy-wait in `write_sector` receives an
explicit fuel parameter and yields the `hang` outcome on exhaustion.

Link side (src/driver.rs): the USB CDC channel is modelled as a list of
received bytes processed one at a time, and an output list of emitted
bytes.  Machine integers are Nat with masks / `% 2 ^ w` exactly where the
source casts.
-/

namespace CdcCardReader

/-- CardStatus from src/sd.rs: SdCardStatus { Init, Ready(u64), Failed }. -/
inductive SdCardStatus where
  | Init : SdCardStatus
  | Ready (cap : Nat) : SdCardStatus
  | Failed : SdCardStatus
deriving DecidableEq, Repr

/-- SdCardError from src/sd.rs: { SpiError, Timeout, InvalidResponse }. -/
inductive SdCardError where
  | SpiError : SdCardError
  | Timeout : SdCardError
  | InvalidResponse : SdCardError
deriving DecidableEq, Repr

/-- Outcome of running a card-side operation: normal return, typed error,
a reached todo branch of the source, or divergence of the
unbounded busy-wait (fuel exhaustion). -/
inductive SdOutcome (α : Type) where
  | ok (a : α) : SdOutcome α
  | err (e : SdCardError) : SdOutcome α
  | todo : SdOutcome α
  | hang : SdOutcome α
deriving DecidableEq, Repr

/-- State of the SPI bus: the response oracle and the bytes sent so far. -/
structure SpiState where
  resp : List Nat → Option Nat
  sent : List Nat

/-- A card-side computation: state passing over the SPI bus. -/
def SdM (α : Type) : Type := SpiState → SdOutcome α × SpiState

def sdPure {α : Type} (a : α) : SdM α := fun s => (.ok a, s)

def sdErr {α : Type} (e : SdCardError) : SdM α := fun s => (.err e, s)

def sdTodo {α : Type} : SdM α := fun s => (.todo, s)

def sdBind {α β : Type} (m : SdM α) (f : α → SdM β) : SdM β := fun s =>
  match m s with
  | (.ok a, s') => f a s'
  | (.err e, s') => (.err e, s')
  | (.todo, s') => (.todo, s')
  | (.hang, s') => (.hang, s')

/-- txrx from src/sd.rs: exchange one byte on the SPI bus. -/
def txrx (w : Nat) : SdM Nat := fun s =>
  let sent' := s.sent ++ [w]
  match s.resp sent' with
  | some b => (.ok b, ⟨s.resp, sent'⟩)
  | none => (.err .SpiError, ⟨s.resp, sent'⟩)

/-- Response poll loop of send_cmd (src/sd.rs lines 60-67): up to `n`
attempts for a response byte with bit 7 clear; exhaustion yields
InvalidResponse. -/
def pollResp : Nat → SdM Nat
  | 0 => sdErr .InvalidResponse
  | n + 1 =>
    sdBind (txrx 0xFF) fun tmp =>
      if tmp &&& 0x80 = 0 then sdPure tmp else pollResp n

/-- send_cmd from src/sd.rs: command byte, 4 argument bytes (big-endian),
CRC byte, then the 10-attempt response poll. -/
def send_cmd (cmd crc arg : Nat) : SdM Nat :=
  sdBind (txrx cmd) fun _ =>
  sdBind (txrx ((arg >>> 24) &&& 0xFF)) fun _ =>
  sdBind (txrx ((arg >>> 16) &&& 0xFF)) fun _ =>
  sdBind (txrx ((arg >>> 8) &&& 0xFF)) fun _ =>
  sdBind (txrx (arg &&& 0xFF)) fun _ =>
  sdBind (txrx crc) fun _ =>
  pollResp 10

/-- The wait loops of read_sector / write_sector / rx_data_block
(src/sd.rs): up to `n` reads, stopping at the first byte that is not 0xFF;
the carried `tmp` is returned when the budget is exhausted (it holds the
last byte read, or the initial value 0 if `n` is 0 as in the source). -/
def pollNotFF : Nat → Nat → SdM Nat
  | 0, tmp => sdPure tmp
  | n + 1, _ =>
    sdBind (txrx 0xFF) fun tmp =>
      if tmp ≠ 0xFF then sdPure tmp else pollNotFF n tmp

/-- Clock in `n` bytes (the payload read loops of src/sd.rs). -/
def rxBytes : Nat → SdM (List Nat)
  | 0 => sdPure []
  | n + 1 =>
    sdBind (txrx 0xFF) fun b =>
    sdBind (rxBytes n) fun rest =>
    sdPure (b :: rest)

/-- Clock out a list of bytes (the payload send loop of write_sector). -/
def txList : List Nat → SdM Unit
  | [] => sdPure ()
  | b :: rest => sdBind (txrx b) fun _ => txList rest

/-- read_sector from src/sd.rs lines 70-98: CMD17, poll for a non-0xFF
byte, require the 0xFE data-start token, then 512 data bytes and 2 CRC
bytes; any other token yields InvalidResponse. -/
def read_sector (addr : Nat) : SdM (List Nat) :=
  sdBind (send_cmd (0x40 + 17) 0x00 addr) fun _ =>
  sdBind (pollNotFF 10 0) fun tmp =>
  if tmp = 0xFE then
    sdBind (rxBytes 512) fun buf =>
    sdBind (txrx 0xFF) fun _ =>
    sdBind (txrx 0xFF) fun _ =>
    sdPure buf
  else
    sdErr .InvalidResponse

/-- Data-response poll of write_sector (src/sd.rs lines 128-133): up to
`n` reads, stopping at the first byte whose low 5 bits are 0x05; the
carried `tmp` is the value examined after the loop. -/
def pollDataResp : Nat → Nat → SdM Nat
  | 0, tmp => sdPure tmp
  | n + 1, _ =>
    sdBind (txrx 0xFF) fun tmp =>
      if tmp &&& 0x1F = 0x05 then sdPure tmp else pollDataResp n tmp

/-- Busy-wait of write_sector (src/sd.rs line 140): reads until a nonzero
byte appears.  The source loop is unbounded; `fuel` bounds the model and
exhaustion is reported as `hang`. -/
def busyWait : Nat → SdM Unit
  | 0 => fun s => (.hang, s)
  | n + 1 =>
    sdBind (txrx 0xFF) fun b =>
      if b = 0 then busyWait n else sdPure ()

/-- write_sector from src/sd.rs lines 100-148: CMD24, ready poll (the
success path requires all 10 polled bytes to be 0xFF), data-start token,
512 payload bytes, 2 CRC bytes, 64-attempt data-response poll requiring
the accepted pattern, then the busy-wait. -/
def write_sector (fuel : Nat) (addr : Nat) (buf : List Nat) : SdM Unit :=
  sdBind (send_cmd (0x40 + 24) 0x00 addr) fun _ =>
  sdBind (pollNotFF 10 0) fun tmp =>
  if tmp = 0xFF then
    sdBind (txrx 0xFE) fun _ =>
    sdBind (txList buf) fun _ =>
    sdBind (txrx 0xFF) fun _ =>
    sdBind (txrx 0xFF) fun _ =>
    sdBind (pollDataResp 64 tmp) fun tmp2 =>
    sdBind (busyWait fuel) fun _ =>
    (if tmp2 &&& 0x1F = 0x05 then sdPure () else sdErr .InvalidResponse)
  else
    sdErr .InvalidResponse

/-- rx_data_block from src/sd.rs lines 150-178: token poll; all-0xFF
exhaustion yields Timeout, a non-0xFE token yields InvalidResponse,
otherwise `n` data bytes and 2 CRC bytes are clocked in. -/
def rx_data_block (n : Nat) : SdM (List Nat) :=
  sdBind (pollNotFF 10 0) fun tmp =>
  if tmp = 0xFF then sdErr .Timeout
  else if tmp ≠ 0xFE then sdErr .InvalidResponse
  else
    sdBind (rxBytes n) fun buf =>
    sdBind (txrx 0xFF) fun _ =>
    sdBind (txrx 0xFF) fun _ =>
    sdPure buf

/-- get_capacity from src/sd.rs lines 180-199: CMD9, require response 0,
read the 16-byte CSD; in the v2 layout the size is
(csd[9] + (csd[8] shifted left 8) + 1) shifted left 10; the v1 layout and
a nonzero response are todo branches in the source. -/
def get_capacity : SdM Nat :=
  sdBind (send_cmd (0x40 + 9) 0x00 0x01) fun res =>
  if res = 0 then
    sdBind (rx_data_block 16) fun csd =>
    if csd.getD 0 0 >>> 6 = 1 then
      sdPure ((csd.getD 9 0 + (csd.getD 8 0 <<< 8) + 1) <<< 10)
    else sdTodo
  else sdTodo

/-- ACMD41 retry loop of init_inner (src/sd.rs lines 241-252): up to `n`
rounds of CMD55 + CMD41; a 0 response proceeds to get_capacity, exhaustion
yields Timeout. -/
def acmdLoop : Nat → SdM Nat
  | 0 => sdErr .Timeout
  | n + 1 =>
    sdBind (send_cmd (0x40 + 55) 0x00 0x00) fun _ =>
    sdBind (send_cmd (0x40 + 41) 0x00 0x40000000) fun res =>
    if res = 0 then get_capacity else acmdLoop n

/-- The 10 warm-up exchanges at the top of init_inner. -/
def fillBytes : Nat → SdM Unit
  | 0 => sdPure ()
  | n + 1 => sdBind (txrx 0xFF) fun _ => fillBytes n

/-- init_inner from src/sd.rs lines 205-255: warm-up, CMD0 requiring idle,
CMD8 requiring response 0x01 (echoed pattern read but not checked), one
unchecked CMD55+CMD41 round, then the bounded ACMD41 retry loop. -/
def init_inner : SdM Nat :=
  sdBind (fillBytes 10) fun _ =>
  sdBind (send_cmd 0x40 0x95 0) fun res =>
  sdBind (txrx 0xFF) fun _ =>
  if res &&& 0x7F ≠ 1 then sdErr .InvalidResponse
  else
    sdBind (send_cmd (0x40 + 8) 0x86 0x1AA) fun res2 =>
    sdBind (if res2 = 0x01 then sdBind (rxBytes 4) fun _ => sdPure () else sdPure ()) fun _ =>
    sdBind (txrx 0xFF) fun _ =>
    if res2 ≠ 0x01 then sdErr .InvalidResponse
    else
      sdBind (send_cmd (0x40 + 55) 0x00 0x00) fun _ =>
      sdBind (send_cmd (0x40 + 41) 0x00 0x40000000) fun _ =>
      acmdLoop 10

/-- SpiSdCard: bus state plus the status field (src/sd.rs). -/
structure SdCard where
  spi : SpiState
  status : SdCardStatus

/-- init from src/sd.rs lines 257-271: status is set to Init, init_inner
runs, and the status becomes Ready(cap) on success or Failed on error.
When a todo branch is reached or the busy-wait diverges the
status is left at the Init value assigned on entry. -/
def SpiSdCard.init (c : SdCard) : SdOutcome Nat × SdCard :=
  match init_inner c.spi with
  | (.ok cap, s') => (.ok cap, ⟨s', .Ready cap⟩)
  | (.err e, s') => (.err e, ⟨s', .Failed⟩)
  | (.todo, s') => (.todo, ⟨s', .Init⟩)
  | (.hang, s') => (.hang, ⟨s', .Init⟩)

/-- status from src/sd.rs: pure read of the status field. -/
def SpiSdCard.status (c : SdCard) : SdCardStatus := c.status

/-! ## Link Protocol Engine (src/driver.rs) -/

/-- Status from src/driver.rs lines 18-27. -/
inductive Status where
  | Ok : Status
  | SerialFault : Status
  | SdFault : Status
  | SdTimeout : Status
  | SdNotReady : Status
  | SdTransportFault : Status
deriving DecidableEq, Repr

/-- Wire value of each Status variant (the repr(u8) discriminants of
src/driver.rs lines 18-27). -/
def Status.toByte : Status → Nat
  | .Ok => 0x01
  | .SerialFault => 0x80
  | .SdFault => 0x81
  | .SdTimeout => 0x82
  | .SdNotReady => 0x83
  | .SdTransportFault => 0x84

/-- From SdCardError for Status (src/driver.rs lines 83-91). -/
def statusOfErr : SdCardError → Status
  | .SpiError => .SdTransportFault
  | .Timeout => .SdTimeout
  | .InvalidResponse => .SdFault

/-- Command from src/driver.rs lines 29-33. -/
inductive Command where
  | status (mode : Nat) : Command
  | read (lba : Nat) : Command
  | write (lba : Nat) : Command
deriving DecidableEq, Repr

/-- Result of Command::try_from: a parsed command, a length/empty error,
or the todo branch reached on an unrecognized opcode byte. -/
inductive ParseResult where
  | ok (c : Command) : ParseResult
  | err : ParseResult
  | todo : ParseResult
deriving DecidableEq, Repr

/-- read_dword_le from src/driver.rs lines 72-81: 8 bytes little-endian. -/
def read_dword_le (b : List Nat) : Nat :=
  b.getD 0 0 ||| (b.getD 1 0 <<< 8) ||| (b.getD 2 0 <<< 16) |||
  (b.getD 3 0 <<< 24) ||| (b.getD 4 0 <<< 32) ||| (b.getD 5 0 <<< 40) |||
  (b.getD 6 0 <<< 48) ||| (b.getD 7 0 <<< 56)

/-- Command::try_from (src/driver.rs lines 93-125): empty input is an
error; opcode 0x02 needs length 2, opcodes 0x03 / 0x04 need length 10;
any other first byte reaches the todo branch of the source. -/
def Command.tryFrom (bytes : List Nat) : ParseResult :=
  match bytes with
  | [] => .err
  | b0 :: rest =>
    if b0 = 0x02 then
      if bytes.length = 2 then .ok (.status (bytes.getD 1 0)) else .err
    else if b0 = 0x03 then
      if bytes.length = 10 then .ok (.read (read_dword_le rest)) else .err
    else if b0 = 0x04 then
      if bytes.length = 10 then .ok (.write (read_dword_le rest)) else .err
    else .todo

/-- PendingWrite from src/driver.rs lines 35-38. -/
structure PendingWrite where
  lba : Nat
  off : Nat
deriving DecidableEq, Repr

/-- Control state of the modelled process: running normally, stopped at a
todo / assertion failure, or stuck in the unbounded busy-wait. -/
inductive HaltState where
  | running : HaltState
  | panicked : HaltState
  | hung : HaltState
deriving DecidableEq, Repr

/-- Driver state (src/driver.rs lines 40-49 plus the WRITEBUF global):
the card, the accumulated command bytes (cmd_buffer[0..cmd_len]), the
pending write session, the 512-byte write buffer, the bytes emitted on the
CDC channel, and the control state. -/
structure DrvState where
  sd : SdCard
  cmd : List Nat
  write : Option PendingWrite
  wbuf : List Nat
  out : List Nat
  halt : HaltState

/-- send_byte: one byte written to the CDC channel. -/
def send_byte (st : DrvState) (b : Nat) : DrvState :=
  { st with out := st.out ++ [b] }

/-- send_word_le from src/driver.rs lines 59-64 (u8 casts as masks). -/
def send_word_le (st : DrvState) (w : Nat) : DrvState :=
  send_byte (send_byte (send_byte (send_byte st (w &&& 0xFF))
    ((w >>> 8) &&& 0xFF)) ((w >>> 16) &&& 0xFF)) ((w >>> 24) &&& 0xFF)

/-- send_dword_le from src/driver.rs lines 66-69: low 32-bit word then
high word, each little-endian (the u32 casts become masks / mod). -/
def send_dword_le (st : DrvState) (w : Nat) : DrvState :=
  send_word_le (send_word_le st (w &&& 0xFFFFFFFF)) ((w >>> 32) % 2 ^ 32)

/-- handle_status (src/driver.rs lines 151-181).  Mode 0 reports the
card status with a 10-byte body (capacity is u64::MAX unless Ready); mode
1 re-runs init and reports the mapped status; other modes do nothing. -/
def handle_status (st : DrvState) (mode : Nat) : DrvState :=
  if mode = 0 then
    let p : Status × Nat :=
      match st.sd.status with
      | .Ready cap => (.Ok, cap)
      | .Init => (.SdNotReady, 2 ^ 64 - 1)
      | .Failed => (.SdFault, 2 ^ 64 - 1)
    send_dword_le (send_byte (send_byte (send_byte st 10) p.1.toByte) 0x00) p.2
  else if mode = 1 then
    match SpiSdCard.init st.sd with
    | (.ok _, sd') =>
        send_byte (send_byte { st with sd := sd' } 1) Status.Ok.toByte
    | (.err e, sd') =>
        send_byte (send_byte { st with sd := sd' } 1) (statusOfErr e).toByte
    | (.todo, sd') => { st with sd := sd', halt := .panicked }
    | (.hang, sd') => { st with sd := sd', halt := .hung }
  else st

/-- handle_read (src/driver.rs lines 183-203): the lba is cast to u32
before the card transaction; success emits a length-1 status Ok followed
by the 512 sector bytes, an error emits the mapped status. -/
def handle_read (st : DrvState) (lba : Nat) : DrvState :=
  match read_sector (lba % 2 ^ 32) st.sd.spi with
  | (.ok buf, spi') =>
      { st with sd := ⟨spi', st.sd.status⟩,
                out := st.out ++ [1, Status.Ok.toByte] ++ buf }
  | (.err e, spi') =>
      { st with sd := ⟨spi', st.sd.status⟩,
                out := st.out ++ [1, (statusOfErr e).toByte] }
  | (.todo, spi') => { st with sd := ⟨spi', st.sd.status⟩, halt := .panicked }
  | (.hang, spi') => { st with sd := ⟨spi', st.sd.status⟩, halt := .hung }

/-- handle_write_begin (src/driver.rs lines 205-219): only a Ready card
opens a session (offset 0) and answers Ok; otherwise SdNotReady is sent
and no session begins. -/
def handle_write_begin (st : DrvState) (lba : Nat) : DrvState :=
  match st.sd.status with
  | .Ready _ =>
      { st with write := some ⟨lba, 0⟩,
                out := st.out ++ [1, Status.Ok.toByte] }
  | _ => { st with out := st.out ++ [1, Status.SdNotReady.toByte] }

/-- handle_write_done (src/driver.rs lines 237-252): commit WRITEBUF via
write_sector at the session lba cast to u32, emit the length-1 mapped
status, clear the session; with no session a SerialFault is emitted. -/
def handle_write_done (fuel : Nat) (st : DrvState) : DrvState :=
  match st.write with
  | some w =>
    match write_sector fuel (w.lba % 2 ^ 32) st.wbuf st.sd.spi with
    | (.ok _, spi') =>
        { st with sd := ⟨spi', st.sd.status⟩,
                  out := st.out ++ [1, Status.Ok.toByte], write := none }
    | (.err e, spi') =>
        { st with sd := ⟨spi', st.sd.status⟩,
                  out := st.out ++ [1, (statusOfErr e).toByte], write := none }
    | (.todo, spi') => { st with sd := ⟨spi', st.sd.status⟩, halt := .panicked }
    | (.hang, spi') => { st with sd := ⟨spi', st.sd.status⟩, halt := .hung }
  | none =>
      { st with out := st.out ++ [1, Status.SerialFault.toByte], write := none }

/-- handle_write_byte (src/driver.rs lines 221-235): with an active
session, assert off is not 512, store the byte at off, advance, and on
reaching 512 run handle_write_done. -/
def handle_write_byte (fuel : Nat) (st : DrvState) (b : Nat) : DrvState :=
  match st.write with
  | some w =>
    if w.off = 512 then { st with halt := .panicked }
    else
      let st' := { st with wbuf := st.wbuf.set w.off b,
                           write := some ⟨w.lba, w.off + 1⟩ }
      if w.off + 1 = 512 then handle_write_done fuel st' else st'
  | none => st

/-- handle_command (src/driver.rs lines 254-260). -/
def handle_command (st : DrvState) : Command → DrvState
  | .status m => handle_status st m
  | .read lba => handle_read st lba
  | .write lba => handle_write_begin st lba

/-- Per-byte body of poll (src/driver.rs lines 271-293): payload bytes go
to handle_write_byte while a session is active; the 0xF3 terminator
dispatches a nonempty accumulated frame (on a parse error the frame is
dropped; the todo branch halts with cmd_len not reset); any other byte is
accumulated, with a full 32-byte buffer reset first.  A halted process
consumes no further input. -/
def stepByte (fuel : Nat) (st : DrvState) (b : Nat) : DrvState :=
  if st.halt ≠ .running then st
  else if st.write.isSome then handle_write_byte fuel st b
  else if b = 0xF3 then
    if st.cmd = [] then st
    else
      match Command.tryFrom st.cmd with
      | .ok c =>
        let st' := handle_command st c
        if st'.halt = .running then { st' with cmd := [] } else st'
      | .err => { st with cmd := [] }
      | .todo => { st with halt := .panicked }
  else
    let st' := if st.cmd.length = 32 then { st with cmd := [] } else st
    { st' with cmd := st'.cmd ++ [b] }

/-- Processing of a received byte sequence, one stepByte at a time. -/
def processBytes (fuel : Nat) (st : DrvState) : List Nat → DrvState
  | [] => st
  | b :: rest => processBytes fuel (stepByte fuel st b) rest

/-- Fresh driver state over a given SPI oracle and card status, matching
Driver::new (src/driver.rs lines 134-149) and the zeroed WRITEBUF. -/
def mkDrv (resp : List Nat → Option Nat) (s : SdCardStatus) : DrvState :=
  ⟨⟨⟨resp, []⟩, s⟩, [], none, List.replicate 512 0, [], .running⟩

/-! ## Concrete SPI oracles used to exercise the card protocol -/

/-- Oracle of a card that always answers 0xFF (busy / no response). -/
def allFF : List Nat → Option Nat := fun _ => some 0xFF

/-- Oracle of a card that always answers 0x01 (idle): every command gets
a valid R1 response but ACMD41 never reports ready. -/
def all1 : List Nat → Option Nat := fun _ => some 1

/-- Oracle accepting one command (response 0 at exchange 6) and answering
0xFF forever after: a read transaction then times out waiting for the
data-start token. -/
def ffBusy : List Nat → Option Nat := fun h =>
  some (if h.length - 1 = 6 then 0 else 0xFF)

/-- Oracle of a canonical successful init transaction, parametric in the
CSD register contents: exchanges 16 and 24 carry the R1 responses of CMD0
and CMD8, exchange 65 the data-start token of the CSD read, exchange 66
the v2 version byte 0x40, and exchanges 67-81 the remaining CSD bytes
x 1 .. x 15; every poll elsewhere answers 0 (success / ready). -/
def csdResp (x : Nat → Nat) : List Nat → Option Nat := fun h =>
  some (
    if h.length - 1 = 16 then 1
    else if h.length - 1 = 24 then 1
    else if h.length - 1 = 65 then 0xFE
    else if h.length - 1 = 66 then 0x40
    else if 67 ≤ h.length - 1 ∧ h.length - 1 ≤ 81 then x (h.length - 1 - 66)
    else 0)

/-- Oracle of a successful single-sector write transaction: command
accepted at exchange 6, the ten ready polls (exchanges 7-16) all answer
0xFF as the success path of write_sector requires, the data response at
exchange 532 carries the accepted pattern 0x05, and exchange 533 ends the
busy-wait with a nonzero byte. -/
def wOkResp : List Nat → Option Nat := fun h =>
  some (
    if h.length - 1 = 6 then 0
    else if 7 ≤ h.length - 1 ∧ h.length - 1 ≤ 16 then 0xFF
    else if h.length - 1 = 532 then 0x05
    else if h.length - 1 = 533 then 1
    else 0)

/-- Oracle of a dead bus: every exchange fails at the transport level. -/
def noResp : List Nat → Option Nat := fun _ => none

/-! ## Evaluation lemmas for the concrete oracles -/

/-- A bind whose first computation succeeds continues in the resulting
state. -/
theorem sdBind_eval {α β : Type} {m : SdM α} {s s' : SpiState} {a : α}
    (f : α → SdM β) (h : m s = (.ok a, s')) : sdBind m f s = f a s' := by
  simp [sdBind, h]

/-- One round of the send_cmd response poll on the always-0xFF card:
the response 0xFF has bit 7 set, so the loop retries. -/
theorem pollResp_succ_allFF (n : Nat) (sent : List Nat) :
    pollResp (n + 1) ⟨allFF, sent⟩ = pollResp n ⟨allFF, sent ++ [0xFF]⟩ := rfl

/-- On the always-0xFF card the response poll of send_cmd exhausts any
attempt budget and yields InvalidResponse. -/
theorem pollResp_allFF (n : Nat) (sent : List Nat) :
    (pollResp n ⟨allFF, sent⟩).1 = .err .InvalidResponse := by
  induction n generalizing sent with
  | zero => rfl
  | succ n ih => rw [pollResp_succ_allFF]; exact ih _

/-- On the always-0xFF card the data-token wait reads 0xFF ten times and
hands back 0xFF. -/
theorem pollNotFF10_allFF (t : Nat) (sent : List Nat) :
    pollNotFF 10 t ⟨allFF, sent⟩ =
      (.ok 0xFF, ⟨allFF, sent ++ List.replicate 10 0xFF⟩) := by
  simp [pollNotFF, sdBind, sdPure, txrx, allFF, List.append_assoc]

/-- On the canonical successful transaction with CSD bytes x, init_inner
returns the size value computed by get_capacity. -/
theorem init_inner_csd (x : Nat → Nat) :
    (init_inner ⟨csdResp x, []⟩).1 = .ok ((x 9 + (x 8 <<< 8) + 1) <<< 10) := by
  simp [init_inner, fillBytes, send_cmd, pollResp, acmdLoop, get_capacity,
    rx_data_block, pollNotFF, rxBytes, sdBind, sdPure, sdErr, sdTodo, txrx,
    csdResp]

/-- On the always-idle card init_inner reaches the ACMD41 retry loop,
every round answers idle, and the loop exhausts with Timeout. -/
theorem init_inner_all1 (sent0 : List Nat) :
    (init_inner ⟨all1, sent0⟩).1 = .err .Timeout := by
  simp [init_inner, fillBytes, send_cmd, pollResp, rxBytes, acmdLoop, sdBind,
    sdPure, sdErr, txrx, all1]

/-- On the one-acknowledgement card, read_sector gets its command
accepted, then polls ten times for a data-start token, sees only 0xFF,
and fails with InvalidResponse. -/
theorem read_sector_ffBusy :
    (read_sector 7 ⟨ffBusy, []⟩).1 = .err .InvalidResponse := by
  simp [read_sector, send_cmd, pollResp, pollNotFF, sdBind, sdPure, sdErr,
    txrx, ffBusy]

/-! ## C1: capacity derived from a v2 CSD register -/

/-- C1, counterexample.  The claim states that a successful init on a v2
CSD geometry register returns (field + 1) * 524288 bytes; with both
size-field bytes zero the code returns (0 + 1) <<< 10 = 1024, not
524288. -/
theorem claim_c1_cex :
    (SpiSdCard.init ⟨⟨csdResp (fun _ => 0), []⟩, .Init⟩).1 = .ok 1024 ∧
    SdOutcome.ok (α := Nat) 1024 ≠ .ok ((0 + 1) * 524288) := by
  have h := init_inner_csd (fun _ => 0)
  rcases hp : init_inner ⟨csdResp (fun _ => 0), []⟩ with ⟨r, s'⟩
  rw [hp] at h
  simp only at h
  subst h
  refine ⟨?_, by decide⟩
  simp [SpiSdCard.init, hp]

/-- C1, amended.  For every 16-byte CSD register whose version byte
indicates the v2 layout, a successful init derives and returns the value
(x 9 + (x 8 <<< 8) + 1) <<< 10 — the size field plus one, times 1024 —
and a subsequent status() reports Ready carrying exactly that value. -/
theorem claim_c1_amended (x : Nat → Nat) :
    (SpiSdCard.init ⟨⟨csdResp x, []⟩, .Init⟩).1 =
      .ok ((x 9 + (x 8 <<< 8) + 1) <<< 10) ∧
    SpiSdCard.status (SpiSdCard.init ⟨⟨csdResp x, []⟩, .Init⟩).2 =
      .Ready ((x 9 + (x 8 <<< 8) + 1) <<< 10) := by
  have h := init_inner_csd x
  rcases hp : init_inner ⟨csdResp x, []⟩ with ⟨r, s'⟩
  rw [hp] at h
  simp only at h
  subst h
  constructor <;> simp [SpiSdCard.init, SpiSdCard.status, hp]

/-! ## C4: outcome of exhausting each bounded wait loop -/

/-- C4, counterexample.  The claim states that exhausting the response
poll in send_cmd yields Timeout; on a card that answers 0xFF to every
exchange the ten polls are exhausted and send_cmd returns InvalidResponse
instead. -/
theorem claim_c4_cex :
    (send_cmd 0x40 0x95 0 ⟨allFF, []⟩).1 = .err .InvalidResponse ∧
    SdOutcome.err (α := Nat) .InvalidResponse ≠ .err .Timeout := by
  refine ⟨?_, by decide⟩
  simp [send_cmd, pollResp, sdBind, sdPure, sdErr, txrx, allFF]

/-- C4, amended.  Exhausting the response poll in send_cmd or the
data-start-token poll in read_sector yields InvalidResponse; exhausting
the token poll in rx_data_block or the init retry loop yields Timeout.
In every case a typed error results, never a silent fallback. -/
theorem claim_c4_amended :
    (∀ n sent0, (pollResp n ⟨allFF, sent0⟩).1 = .err .InvalidResponse) ∧
    (∀ sent0, (send_cmd 0x51 0x00 0 ⟨allFF, sent0⟩).1 = .err .InvalidResponse) ∧
    ((read_sector 7 ⟨ffBusy, []⟩).1 = .err .InvalidResponse) ∧
    (∀ n sent0, (rx_data_block n ⟨allFF, sent0⟩).1 = .err .Timeout) ∧
    (∀ sent0 s0, (SpiSdCard.init ⟨⟨all1, sent0⟩, s0⟩).1 = .err .Timeout) := by
  refine ⟨pollResp_allFF, ?_, read_sector_ffBusy, ?_, ?_⟩
  · intro sent0
    simp [send_cmd, pollResp, sdBind, sdPure, sdErr, txrx, allFF]
  · intro n sent0
    simp only [rx_data_block, sdBind_eval _ (pollNotFF10_allFF 0 sent0)]
    simp [sdErr]
  · intro sent0 s0
    have h := init_inner_all1 sent0
    rcases hp : init_inner ⟨all1, sent0⟩ with ⟨r, s'⟩
    rw [hp] at h
    simp only at h
    subst h
    simp [SpiSdCard.init, hp]

/-! ## C8: init outcome always matches the resulting card status -/

/-- C8.  After every call to init that returns Ok(cap) the card status is
Ready(cap); after every call that returns an error the status is Failed —
so a Ready status always carries the capacity of a fully successful
init. -/
theorem claim_c8 (c : SdCard) :
    (∀ cap, (SpiSdCard.init c).1 = .ok cap →
      (SpiSdCard.init c).2.status = .Ready cap) ∧
    (∀ e, (SpiSdCard.init c).1 = .err e →
      (SpiSdCard.init c).2.status = .Failed) := by
  rcases hi : init_inner c.spi with ⟨r, s'⟩
  cases r <;> simp [SpiSdCard.init, hi]

/-- C8, witness: a card completing the canonical successful transaction
ends Ready 1024, and a card whose bus is dead ends Failed. -/
theorem claim_c8_witness :
    (SpiSdCard.init ⟨⟨csdResp (fun _ => 0), []⟩, .Init⟩).2.status = .Ready 1024 ∧
    (SpiSdCard.init ⟨⟨noResp, []⟩, .Init⟩).2.status = .Failed := by
  constructor
  · apply (claim_c8 _).1 1024
    have h := init_inner_csd (fun _ => 0)
    rcases hp : init_inner ⟨csdResp (fun _ => 0), []⟩ with ⟨r, s'⟩
    rw [hp] at h
    simp only at h
    subst h
    simp [SpiSdCard.init, hp]
  · exact (claim_c8 _).2 .SpiError rfl

/-! ## C9: status byte values and total error mapping -/

/-- C9.  The status byte takes exactly the values Ok = 0x01,
SerialFault = 0x80, SdFault = 0x81, SdTimeout = 0x82, SdNotReady = 0x83,
SdTransportFault = 0x84; every card-side error maps to one of them
(SpiError to SdTransportFault, Timeout to SdTimeout, InvalidResponse to
SdFault); and a card error during a read is translated into a status
response while processing continues (the driver does not halt). -/
theorem claim_c9 :
    (Status.Ok.toByte = 0x01 ∧ Status.SerialFault.toByte = 0x80 ∧
     Status.SdFault.toByte = 0x81 ∧ Status.SdTimeout.toByte = 0x82 ∧
     Status.SdNotReady.toByte = 0x83 ∧ Status.SdTransportFault.toByte = 0x84) ∧
    (statusOfErr .SpiError = .SdTransportFault ∧
     statusOfErr .Timeout = .SdTimeout ∧
     statusOfErr .InvalidResponse = .SdFault) ∧
    (∀ st lba e spi', st.halt = .running →
      read_sector (lba % 2 ^ 32) st.sd.spi = (.err e, spi') →
      (handle_read st lba).halt = .running ∧
      (handle_read st lba).out = st.out ++ [1, (statusOfErr e).toByte]) := by
  refine ⟨⟨rfl, rfl, rfl, rfl, rfl, rfl⟩, ⟨rfl, rfl, rfl⟩, ?_⟩
  intro st lba e spi' hrun hr
  have hr' : read_sector (lba % 4294967296) st.sd.spi = (.err e, spi') := hr
  simp [handle_read, hr', hrun]

/-- C9, witness for the hypothesis-bearing part: a read on an
unresponsive card keeps the driver running and emits the SdFault
status. -/
theorem claim_c9_witness :
    (handle_read (mkDrv allFF .Init) 0).halt = .running ∧
    (handle_read (mkDrv allFF .Init) 0).out =
      (mkDrv allFF .Init).out ++ [1, (statusOfErr .InvalidResponse).toByte] := by
  have h1 : (read_sector (0 % 2 ^ 32) (mkDrv allFF .Init).sd.spi).1 =
      .err .InvalidResponse := by
    show (read_sector (0 % 2 ^ 32) ⟨allFF, []⟩).1 = .err .InvalidResponse
    simp [read_sector, send_cmd, pollResp, pollNotFF, sdBind, sdPure, sdErr,
      txrx, allFF]
  rcases hp : read_sector (0 % 2 ^ 32) (mkDrv allFF .Init).sd.spi with ⟨r, spi'⟩
  rw [hp] at h1
  simp only at h1
  subst h1
  exact claim_c9.2.2 (mkDrv allFF .Init) 0 .InvalidResponse spi' rfl hp

/-! ## Driver-level helper lemmas -/

/-- handle_write_done never touches the command buffer or the write
buffer. -/
theorem handle_write_done_pres (fuel : Nat) (st : DrvState) :
    (handle_write_done fuel st).cmd = st.cmd ∧
    (handle_write_done fuel st).wbuf = st.wbuf := by
  rcases hw : st.write with _ | w
  · simp [handle_write_done, hw]
  · rcases hws : write_sector fuel (w.lba % 2 ^ 32) st.wbuf st.sd.spi with ⟨r, spi'⟩
    have hws' : write_sector fuel (w.lba % 4294967296) st.wbuf st.sd.spi =
        (r, spi') := hws
    cases r <;> simp [handle_write_done, hw, hws']

/-- A frame starting with a recognized opcode but of the wrong length is
a parse error. -/
theorem tryFrom_wrong_length (b0 : Nat) (rest : List Nat)
    (h : b0 = 0x02 ∧ (b0 :: rest).length ≠ 2 ∨
         b0 = 0x03 ∧ (b0 :: rest).length ≠ 10 ∨
         b0 = 0x04 ∧ (b0 :: rest).length ≠ 10) :
    Command.tryFrom (b0 :: rest) = .err := by
  rcases h with ⟨rfl, hl⟩ | ⟨rfl, hl⟩ | ⟨rfl, hl⟩ <;>
    (simp only [List.length_cons] at hl
     simp [Command.tryFrom]
     omega)

/-- One accumulation step of the command buffer: a full 32-byte buffer is
reset before the byte is stored (src/driver.rs lines 288-292). -/
def accumStep (acc : List Nat) (b : Nat) : List Nat :=
  if acc.length = 32 then [b] else acc ++ [b]

/-- The contents of the command buffer after accumulating a byte
sequence starting from an empty buffer. -/
def accumFold (bytes : List Nat) : List Nat := bytes.foldl accumStep []

/-- Processing a concatenation processes the pieces in order. -/
theorem processBytes_append (fuel : Nat) (st : DrvState) (xs ys : List Nat) :
    processBytes fuel st (xs ++ ys) =
      processBytes fuel (processBytes fuel st xs) ys := by
  induction xs generalizing st with
  | nil => simp [processBytes]
  | cons b bs ih => simp [processBytes, ih]

/-- A non-terminator byte received outside of a write session is only
accumulated. -/
theorem stepByte_accum (fuel : Nat) (st : DrvState) (b : Nat)
    (hrun : st.halt = .running) (hw : st.write = none) (hb : b ≠ 0xF3) :
    stepByte fuel st b = { st with cmd := accumStep st.cmd b } := by
  by_cases hl : st.cmd.length = 32 <;>
    simp [stepByte, hrun, hw, hb, accumStep, hl]

/-- Accumulating a terminator-free byte sequence outside of a write
session folds the accumulation step over the buffer and changes nothing
else. -/
theorem processBytes_accum (fuel : Nat) (bytes : List Nat) (st : DrvState)
    (hrun : st.halt = .running) (hw : st.write = none)
    (hnf : ∀ b ∈ bytes, b ≠ 0xF3) :
    processBytes fuel st bytes =
      { st with cmd := bytes.foldl accumStep st.cmd } := by
  induction bytes generalizing st with
  | nil => rfl
  | cons b bs ih =>
    have hb : b ≠ 0xF3 := hnf b (by simp)
    calc processBytes fuel st (b :: bs)
        = processBytes fuel (stepByte fuel st b) bs := rfl
      _ = processBytes fuel { st with cmd := accumStep st.cmd b } bs := by
          rw [stepByte_accum fuel st b hrun hw hb]
      _ = { st with cmd := bs.foldl accumStep (accumStep st.cmd b) } := by
          exact ih { st with cmd := accumStep st.cmd b } hrun hw
            (fun x hx => hnf x (by simp [hx]))
      _ = { st with cmd := (b :: bs).foldl accumStep st.cmd } := rfl

/-- The accumulation fold never grows the buffer beyond 32 bytes. -/
theorem accum_foldl_le (bytes : List Nat) :
    ∀ acc : List Nat, acc.length ≤ 32 →
      (bytes.foldl accumStep acc).length ≤ 32 := by
  induction bytes with
  | nil => intro acc h; simpa using h
  | cons b bs ih =>
    intro acc h
    apply ih
    by_cases hl : acc.length = 32 <;> simp [accumStep, hl] <;> omega

/-- A terminator byte received outside of a write session: with an empty
buffer it is ignored outright, and a buffer that fails to parse is
dropped with no response and no other state change. -/
theorem stepByte_term (fuel : Nat) (st : DrvState) (hrun : st.halt = .running)
    (hw : st.write = none) :
    (st.cmd = [] → stepByte fuel st 0xF3 = st) ∧
    (Command.tryFrom st.cmd = .err →
      stepByte fuel st 0xF3 = { st with cmd := [] }) := by
  have p1 : st.cmd = [] → stepByte fuel st 0xF3 = st := by
    intro hc
    simp [stepByte, hrun, hw, hc]
  refine ⟨p1, ?_⟩
  intro he
  by_cases hc : st.cmd = []
  · rw [p1 hc]
    obtain ⟨sd, cmd, wr, wbuf, out, halt⟩ := st
    simp only at hc
    subst hc
    rfl
  · simp [stepByte, hrun, hw, hc, he]

/-- Observational equality of driver states: every field agrees except
that a lingering pending-write session is compared only on its progress
offset, not on its stored address. -/
def obsEq (a b : DrvState) : Prop :=
  a.sd = b.sd ∧ a.cmd = b.cmd ∧
  Option.map PendingWrite.off a.write = Option.map PendingWrite.off b.write ∧
  a.wbuf = b.wbuf ∧ a.out = b.out ∧ a.halt = b.halt

/-! ## C2: payload mode consumes every byte as raw sector data -/

/-- C2.  While a write session is active with fewer than 512 bytes
received, any incoming byte — the 0xF3 terminator and opcode bytes
included — is stored into the write buffer at the current offset, the
command buffer is never touched, and (before the 512th byte) nothing else
in the state changes: the byte is never dispatched or accumulated as a
command. -/
theorem claim_c2 (fuel b : Nat) (st : DrvState) (w : PendingWrite)
    (hrun : st.halt = .running) (hw : st.write = some w)
    (hoff : w.off < 512) :
    (stepByte fuel st b).cmd = st.cmd ∧
    (stepByte fuel st b).wbuf = st.wbuf.set w.off b ∧
    (w.off + 1 < 512 →
      stepByte fuel st b =
        { st with wbuf := st.wbuf.set w.off b,
                  write := some ⟨w.lba, w.off + 1⟩ }) := by
  have hne : w.off ≠ 512 := Nat.ne_of_lt hoff
  have h1 : stepByte fuel st b = handle_write_byte fuel st b := by
    simp [stepByte, hrun, hw]
  by_cases hfin : w.off + 1 = 512
  · have hp := handle_write_done_pres fuel
      { st with wbuf := st.wbuf.set w.off b, write := some ⟨w.lba, w.off + 1⟩ }
    rw [h1]
    simp only [handle_write_byte, hw, if_neg hne, if_pos hfin]
    exact ⟨hp.1, hp.2, fun hlt => absurd hfin (by omega)⟩
  · rw [h1]
    simp [handle_write_byte, hw, hne, hfin]

/-- C2, witness: mid-session (offset 3), the frame-terminator byte 0xF3
is stored as payload byte 3 and nothing else changes. -/
theorem claim_c2_witness :
    stepByte 0 { mkDrv noResp (.Ready 1024) with write := some ⟨5, 3⟩ } 0xF3 =
      { mkDrv noResp (.Ready 1024) with
          wbuf := (mkDrv noResp (.Ready 1024)).wbuf.set 3 0xF3,
          write := some ⟨5, 4⟩ } :=
  (claim_c2 0 0xF3 { mkDrv noResp (.Ready 1024) with write := some ⟨5, 3⟩ }
    ⟨5, 3⟩ rfl rfl (by decide)).2.2 (by decide)

/-! ## C3: the 512th payload byte commits the sector synchronously -/

/-- C3.  When the 512th payload byte of an active write session arrives,
the engine stores it, synchronously commits the 512-byte buffer via
write_sector at the session address (truncated to u32), emits the
length-1 status response reflecting the commit result (Ok on success, the
mapped error status on failure), and clears the session. -/
theorem claim_c3 (fuel b : Nat) (st : DrvState) (w : PendingWrite)
    (hrun : st.halt = .running) (hw : st.write = some w)
    (hoff : w.off = 511) :
    ((write_sector fuel (w.lba % 2 ^ 32) (st.wbuf.set 511 b) st.sd.spi).1 =
        .ok () →
      stepByte fuel st b =
        { st with
            sd := ⟨(write_sector fuel (w.lba % 2 ^ 32) (st.wbuf.set 511 b)
                      st.sd.spi).2, st.sd.status⟩,
            wbuf := st.wbuf.set 511 b, write := none,
            out := st.out ++ [1, Status.Ok.toByte] }) ∧
    (∀ e, (write_sector fuel (w.lba % 2 ^ 32) (st.wbuf.set 511 b)
              st.sd.spi).1 = .err e →
      stepByte fuel st b =
        { st with
            sd := ⟨(write_sector fuel (w.lba % 2 ^ 32) (st.wbuf.set 511 b)
                      st.sd.spi).2, st.sd.status⟩,
            wbuf := st.wbuf.set 511 b, write := none,
            out := st.out ++ [1, (statusOfErr e).toByte] }) := by
  rcases w with ⟨lba, off⟩
  simp only at hoff hw
  subst hoff
  have h1 : stepByte fuel st b = handle_write_byte fuel st b := by
    simp [stepByte, hrun, hw]
  rcases hws : write_sector fuel (lba % 2 ^ 32) (st.wbuf.set 511 b) st.sd.spi
    with ⟨r, spi'⟩
  have hws' : write_sector fuel (lba % 4294967296) (st.wbuf.set 511 b)
      st.sd.spi = (r, spi') := hws
  constructor
  · intro hok
    simp only at hok
    subst hok
    rw [h1]
    simp [handle_write_byte, hw, handle_write_done, hws']
  · intro e herr
    simp only at herr
    subst herr
    rw [h1]
    simp [handle_write_byte, hw, handle_write_done, hws']

/-- C3, witness: on a card that answers 0 to every exchange the commit
fails with InvalidResponse (the ready wait sees a non-0xFF byte), and the
512th payload byte yields exactly the length-1 SdFault response with the
session cleared. -/
theorem claim_c3_witness :
    stepByte 0 { mkDrv (fun _ => some 0) (.Ready 1024) with
        write := some ⟨3, 511⟩ } 171 =
      { mkDrv (fun _ => some 0) (.Ready 1024) with
          sd := ⟨(write_sector 0 (3 % 2 ^ 32)
                    ((mkDrv (fun _ => some 0) (.Ready 1024)).wbuf.set 511 171)
                    (mkDrv (fun _ => some 0) (.Ready 1024)).sd.spi).2,
                 .Ready 1024⟩,
          wbuf := (mkDrv (fun _ => some 0) (.Ready 1024)).wbuf.set 511 171,
          write := none,
          out := [1, (statusOfErr .InvalidResponse).toByte] } :=
  (claim_c3 0 171 { mkDrv (fun _ => some 0) (.Ready 1024) with
      write := some ⟨3, 511⟩ } ⟨3, 511⟩ rfl rfl rfl).2 .InvalidResponse
    (by decide)

/-! ## C5: disposition of malformed terminated frames -/

/-- C5, counterexample.  The claim states that a frame whose first byte
is not a recognized opcode is discarded with no response and processing
continues normally.  In the code such a frame reaches the todo branch
of Command::try_from, which panics: after the frame 0x05 0xF3 the process
is halted, and a subsequent well-formed STATUS frame elicits no response
at all (from a fresh state the same STATUS frame answers with a non-empty
response). -/
theorem claim_c5_cex :
    (processBytes 0 (mkDrv (fun _ => some 0) .Init)
        [0x05, 0xF3, 0x02, 0x00, 0xF3]).halt = .panicked ∧
    (processBytes 0 (mkDrv (fun _ => some 0) .Init)
        [0x05, 0xF3, 0x02, 0x00, 0xF3]).out = [] ∧
    (processBytes 0 (mkDrv (fun _ => some 0) .Init) [0x02, 0x00, 0xF3]).out ≠
      [] := by
  refine ⟨?_, ?_, ?_⟩ <;> decide

/-- C5, amended.  For a terminated frame that is empty, or whose first
byte is a recognized opcode with the wrong frame length, the frame is
discarded with no response bytes sent and no other state change, and
processing continues normally with the next frame.  (A first byte that is
not a recognized opcode instead reaches an unimplemented branch and
panics — see the counterexample.) -/
theorem claim_c5 (fuel : Nat) (st : DrvState) (hrun : st.halt = .running)
    (hw : st.write = none) :
    (st.cmd = [] → stepByte fuel st 0xF3 = st) ∧
    (Command.tryFrom st.cmd = .err →
      stepByte fuel st 0xF3 = { st with cmd := [] }) ∧
    (∀ b0 rest, st.cmd = b0 :: rest →
      (b0 = 0x02 ∧ st.cmd.length ≠ 2 ∨ b0 = 0x03 ∧ st.cmd.length ≠ 10 ∨
        b0 = 0x04 ∧ st.cmd.length ≠ 10) →
      stepByte fuel st 0xF3 = { st with cmd := [] }) := by
  have h := stepByte_term fuel st hrun hw
  refine ⟨h.1, h.2, ?_⟩
  intro b0 rest hcmd hwl
  rw [hcmd] at hwl
  exact h.2 (by rw [hcmd]; exact tryFrom_wrong_length b0 rest hwl)

/-- C5, witness: a STATUS frame of length 1 (wrong length for opcode
0x02) is dropped at the terminator with no output and a cleared
buffer. -/
theorem claim_c5_witness :
    stepByte 0 { mkDrv noResp .Init with cmd := [0x02] } 0xF3 =
      { mkDrv noResp .Init with cmd := [] } :=
  (claim_c5 0 { mkDrv noResp .Init with cmd := [0x02] } rfl rfl).2.2
    0x02 [] rfl (Or.inl ⟨rfl, by decide⟩)

/-! ## C6: frames longer than the 32-byte accumulation buffer -/

/-- C6, counterexample.  The claim states that an oversized frame
followed by a terminator dispatches no command.  A 34-byte frame whose
last two bytes are 0x02 0x00 overflows the buffer after 32 bytes, the
reset re-accumulates the tail as a fresh STATUS frame, and the
terminator dispatches it: the driver answers with the 11-byte STATUS
response. -/
theorem claim_c6_cex :
    (processBytes 0 (mkDrv noResp .Init)
        (List.replicate 32 0 ++ [0x02, 0x00, 0xF3])).out =
      [10, 0x83, 0x00, 255, 255, 255, 255, 255, 255, 255, 255] ∧
    (processBytes 0 (mkDrv noResp .Init)
        (List.replicate 32 0 ++ [0x02, 0x00, 0xF3])).out ≠ [] := by
  refine ⟨?_, ?_⟩ <;> decide

/-- C6, amended.  For every terminator-free frame longer than 32 bytes,
the accumulation buffer never exceeds 32 bytes and the frame as a whole
is never parsed (the buffer holds only the bytes after the most recent
overflow reset, a proper suffix).  If that re-accumulated suffix does not
parse as a command, the terminator dispatches nothing, no response is
sent, the state returns to exactly its pre-frame value, and any
subsequent input — in particular a well-formed frame — is processed as
from a clean slate. -/
theorem claim_c6 (fuel : Nat) (st : DrvState) (frame : List Nat)
    (hcmd : st.cmd = []) (hw : st.write = none) (hrun : st.halt = .running)
    (hlen : 32 < frame.length) (hnf : ∀ b ∈ frame, b ≠ 0xF3)
    (herr : Command.tryFrom (accumFold frame) = .err) :
    processBytes fuel st (frame ++ [0xF3]) = st ∧
    (accumFold frame).length ≤ 32 ∧
    accumFold frame ≠ frame ∧
    ∀ rest, processBytes fuel st (frame ++ 0xF3 :: rest) =
      processBytes fuel st rest := by
  have hle : (accumFold frame).length ≤ 32 :=
    accum_foldl_le frame [] (by simp)
  have hacc : processBytes fuel st frame =
      { st with cmd := accumFold frame } := by
    rw [processBytes_accum fuel frame st hrun hw hnf, hcmd]
    rfl
  have hmain : processBytes fuel st (frame ++ [0xF3]) = st := by
    rw [processBytes_append, hacc]
    show stepByte fuel { st with cmd := accumFold frame } 0xF3 = st
    have h5 := stepByte_term fuel { st with cmd := accumFold frame } hrun hw
    by_cases hce : accumFold frame = []
    · rw [h5.1 hce]
      obtain ⟨sd, cmd, wr, wbuf, out, halt⟩ := st
      simp only at hcmd
      subst hcmd
      simp [hce]
    · rw [h5.2 herr]
      obtain ⟨sd, cmd, wr, wbuf, out, halt⟩ := st
      simp only at hcmd
      subst hcmd
      rfl
  refine ⟨hmain, hle, ?_, ?_⟩
  · intro hEq
    have : frame.length ≤ 32 := hEq ▸ hle
    omega
  · intro rest
    rw [List.append_cons, processBytes_append, hmain]

/-- C6, witness: a 33-byte frame (32 zero bytes then the opcode 0x02) is
lost — its re-accumulated one-byte tail fails to parse — and the state
returns exactly to its initial value, so following input starts clean. -/
theorem claim_c6_witness :
    processBytes 0 (mkDrv noResp .Init)
        ((List.replicate 32 0 ++ [0x02]) ++ [0xF3]) = mkDrv noResp .Init ∧
    (accumFold (List.replicate 32 0 ++ [0x02])).length ≤ 32 ∧
    accumFold (List.replicate 32 0 ++ [0x02]) ≠
      List.replicate 32 0 ++ [0x02] ∧
    processBytes 0 (mkDrv noResp .Init)
        ((List.replicate 32 0 ++ [0x02]) ++ 0xF3 :: [0x02, 0x00, 0xF3]) =
      processBytes 0 (mkDrv noResp .Init) [0x02, 0x00, 0xF3] := by
  have h := claim_c6 0 (mkDrv noResp .Init) (List.replicate 32 0 ++ [0x02])
    rfl rfl rfl (by decide) (by decide) (by decide)
  exact ⟨h.1, h.2.1, h.2.2.1, h.2.2.2 [0x02, 0x00, 0xF3]⟩

/-! ## C7: WRITE is only accepted on a Ready card -/

/-- C7.  A dispatched WRITE(lba): when the card status is Ready the
driver opens a session at offset 0 for that lba and answers the length-1
Ok (0x01) response; when the card status is not Ready it answers the
length-1 SdNotReady (0x83) response and the pending-write session is left
unchanged (none stays none). -/
theorem claim_c7 (st : DrvState) (lba : Nat) :
    (∀ cap, st.sd.status = .Ready cap →
      handle_write_begin st lba =
        { st with write := some ⟨lba, 0⟩, out := st.out ++ [1, 0x01] }) ∧
    ((∀ cap, st.sd.status ≠ .Ready cap) →
      handle_write_begin st lba = { st with out := st.out ++ [1, 0x83] } ∧
      (handle_write_begin st lba).write = st.write) := by
  constructor
  · intro cap h
    simp [handle_write_begin, h, Status.toByte]
  · intro hne
    cases hs : st.sd.status with
    | Ready cap => exact absurd hs (hne cap)
    | Init =>
      exact ⟨by simp [handle_write_begin, hs, Status.toByte],
        by simp [handle_write_begin, hs]⟩
    | Failed =>
      exact ⟨by simp [handle_write_begin, hs, Status.toByte],
        by simp [handle_write_begin, hs]⟩

/-- C7, witness: on a Ready card WRITE(9) opens the session and answers
0x01; on an uninitialized card it answers 0x83 and no session exists. -/
theorem claim_c7_witness :
    handle_write_begin (mkDrv noResp (.Ready 1024)) 9 =
      { mkDrv noResp (.Ready 1024) with
          write := some ⟨9, 0⟩,
          out := [1, 0x01] } ∧
    handle_write_begin (mkDrv noResp .Init) 9 =
      { mkDrv noResp .Init with out := [1, 0x83] } ∧
    (handle_write_begin (mkDrv noResp .Init) 9).write = none := by
  refine ⟨(claim_c7 (mkDrv noResp (.Ready 1024)) 9).1 1024 rfl, ?_, ?_⟩
  · exact ((claim_c7 (mkDrv noResp .Init) 9).2
      (fun cap h => SdCardStatus.noConfusion h)).1
  · exact ((claim_c7 (mkDrv noResp .Init) 9).2
      (fun cap h => SdCardStatus.noConfusion h)).2

/-! ## C10: addresses are truncated to 32 bits at the card boundary -/

/-- C10.  READ and WRITE frames carry an 8-byte little-endian address,
but the driver casts it to u32 before the card transaction: for any two
addresses congruent modulo 2^32, handle_read produces identical states,
and committing a pending write produces observationally equal states (the
stored session address itself is gone in every case except a halt, where
only it differs). -/
theorem claim_c10 (lba lba' : Nat) (h : lba % 2 ^ 32 = lba' % 2 ^ 32) :
    (∀ st : DrvState, handle_read st lba = handle_read st lba') ∧
    (∀ (st : DrvState) (off fuel : Nat),
      obsEq (handle_write_done fuel { st with write := some ⟨lba, off⟩ })
        (handle_write_done fuel { st with write := some ⟨lba', off⟩ })) := by
  constructor
  · intro st
    simp only [handle_read, h]
  · intro st off fuel
    simp only [handle_write_done]
    rw [h]
    rcases hws : write_sector fuel (lba' % 2 ^ 32) st.wbuf st.sd.spi
      with ⟨r, spi'⟩
    cases r <;> simp [obsEq]

/-- C10, witness: address 2^32 and address 0 produce identical reads and
observationally equal write commits. -/
theorem claim_c10_witness :
    handle_read (mkDrv noResp .Init) (2 ^ 32) =
      handle_read (mkDrv noResp .Init) 0 ∧
    obsEq (handle_write_done 0
        { mkDrv noResp .Init with write := some ⟨2 ^ 32, 0⟩ })
      (handle_write_done 0
        { mkDrv noResp .Init with write := some ⟨0, 0⟩ }) := by
  have h : (2 ^ 32) % 2 ^ 32 = 0 % 2 ^ 32 := by norm_num
  exact ⟨(claim_c10 (2 ^ 32) 0 h).1 (mkDrv noResp .Init),
    (claim_c10 (2 ^ 32) 0 h).2 (mkDrv noResp .Init) 0 0⟩

end CdcCardReader
